import Mathlib

/-!
Verification of the task-scheduler lambda (handler.py, dynamo.py,
task_types/message.py, task_types/poll.py, task_types/query_for_update.py)
against its natural-language specification.

The Python sources are shallowly embedded as executable Lean definitions.
Conventions used throughout:

* Python strings are Lean `String`s.  Python string truthiness (`if s:`)
  becomes an emptiness test; a possibly-absent value (`dict.get`) becomes
  an `Option`, and `dict.get(k, d)` becomes `Option.getD`.
* Timestamps: `datetime` values are modelled as a `Nat` counting minutes
  since a reference instant that falls on a Monday at 00:00 (so
  `t / 1440 % 7` is exactly Python's `datetime.weekday()`, Monday = 0).
  `datetime.isoformat()` ordering on the real line agrees with `≤` on
  this counter, and `timedelta` addition is addition of minutes.
* External collaborators (DynamoDB, the Bedrock reasoning backend, the
  dronebot HTTP endpoint, the agent lambdas, the random source) are
  supplied by an explicit environment record; a call that can raise an
  exception is given type `Except String α`, the `error` case being the
  raised exception's text.
-/

namespace TaskSched

/-- Python truthiness of a possibly-absent string (`None` and `''` are
falsy, every other string is truthy). -/
def pyTruthy : Option String → Bool
  | none => false
  | some s => !s.isEmpty

/-- Python `str.startswith`, computed structurally on the character list. -/
def pyStartsWith (s p : String) : Bool := p.data.isPrefixOf s.data

/-- Auxiliary structural splitter used to model Python `str.split(sep)`. -/
def pySplitAux (sep : Char) : List Char → List Char → List (List Char)
  | [], acc => [acc.reverse]
  | c :: cs, acc =>
    if c == sep then acc.reverse :: pySplitAux sep cs []
    else pySplitAux sep cs (c :: acc)

/-- Python `str.split(sep)` for a one-character separator. -/
def pySplit (s : String) (sep : Char) : List String :=
  (pySplitAux sep s.data []).map fun l => String.mk l

/-- Python `str.lower()`. -/
def pyLower (s : String) : String := String.mk (s.data.map Char.toLower)

/-- Python `str.isdigit()` (false on the empty string). -/
def pyIsDigit (s : String) : Bool := !s.isEmpty && s.data.all Char.isDigit

/-- Python `s[:n]` on a string, computed structurally. -/
def pyTake (n : Nat) (s : String) : String := String.mk (s.data.take n)

/-! ## Task records (the DynamoDB item shape used by handler.py/dynamo.py) -/

/-- The `scheduler_params` sub-object of a task.  Every field is read in
the source with `dict.get` and a default, hence `Option`s here. -/
structure SchedulerParams where
  execution_rate : Option Nat := none
  repeat_interval : Option Nat := none
  num_repeats : Option Nat := none
  repeats_executed : Option Nat := none
deriving DecidableEq, Repr

/-- A task item from the `cpu-tasks` table, restricted to the fields the
scheduler core reads.  `payload_content`, `payload_question`,
`payload_options`, `payload_duration_hours` model `payload.content`,
`payload.question`, `payload.options` and `payload.duration_hours`;
`agent_max_iterations` models `agent_params.max_iterations`.
`schedule_time` models the source's `"HH:MM"` string as an
(hour, minute) pair (the source parses the string with
`map(int, preferred_time.split(':'))`). -/
structure Task where
  task_id : String
  target : String
  type : Option String := none
  targets : List String := []
  channel : Option String := none
  channel_id : Option String := none
  assignee : Option String := none
  title : Option String := none
  payload_content : Option String := none
  payload_question : Option String := none
  payload_options : List String := []
  payload_duration_hours : Option Nat := none
  agent_max_iterations : Option Nat := none
  scheduler_params : SchedulerParams := {}
  status : String := "active"
  next_fire : Option Nat := none
  last_fired : Option Nat := none
  error_count : Nat := 0
  last_error : Option String := none
  recurring : Option String := none
  schedule_time : Option (Nat × Nat) := none
deriving DecidableEq, Repr

/-! ## dynamo.py -/

/-- Membership test of `get_due_tasks` (dynamo.py): the status+next_fire
index selects tasks with `status == 'active'` and `next_fire <= now`;
an item without a `next_fire` attribute is absent from the index. -/
def is_due (now : Nat) (task : Task) : Bool :=
  task.status == "active" &&
    match task.next_fire with
    | some nf => decide (nf ≤ now)
    | none => false

/-- The English day-name list of `calculate_recurring_next_fire`
(dynamo.py line 150), Sunday first. -/
def weekdayNames : List String :=
  ["sunday", "monday", "tuesday", "wednesday", "thursday", "friday", "saturday"]

/-- dynamo.py `calculate_recurring_next_fire(from_date, recurring, preferred_time)`.
`from_date` is minutes since the reference Monday; the result is the
minutes counter of the returned datetime.  The `days.index` call's
`ValueError` fallback (`+7 days`) is the `none` branch of `findIdx?`.
`days_to_add` is computed in `Int` exactly as in the source and the
final `timedelta(days=days_to_add)` addition is the `Int` addition
(always applied after the positivity adjustment). -/
def calculate_recurring_next_fire (from_date : Nat) (recurring : String)
    (preferred_time : Option (Nat × Nat)) : Nat :=
  let next_time : Nat :=
    match preferred_time with
    | some (hours, minutes) => from_date / 1440 * 1440 + hours * 60 + minutes
    | none => from_date
  if next_time ≤ from_date then
    if recurring == "hourly" then next_time + 60
    else if recurring == "daily" then next_time + 1440
    else if pyStartsWith recurring "weekly:" then
      let target_day := pyLower ((pySplit recurring ':').getD 1 "")
      match weekdayNames.findIdx? (fun d => d == target_day) with
      | some target_day_index =>
        let current_day := (next_time / 1440 % 7 + 1) % 7
        let days_to_add : Int := (target_day_index : Int) - (current_day : Int)
        let days_to_add := if days_to_add ≤ 0 then days_to_add + 7 else days_to_add
        ((next_time : Int) + days_to_add * 1440).toNat
      | none => next_time + 7 * 1440
    else next_time
  else next_time

/-- dynamo.py `calculate_next_fire(task)`; `now` stands for the
`datetime.utcnow()` read inside the function. -/
def calculate_next_fire (task : Task) (now : Nat) : Option Nat :=
  if pyTruthy task.recurring then
    some (calculate_recurring_next_fire now (task.recurring.getD "") task.schedule_time)
  else
    let repeat_interval := task.scheduler_params.repeat_interval.getD 60
    if repeat_interval ≠ 0 then some (now + repeat_interval)
    else none

/-- The fields written by dynamo.py `mark_task_fired` via `update_task`
(an update touches exactly the named attributes of the stored item). -/
structure TaskUpdate where
  last_fired : Option Nat
  next_fire : Option Nat
  status : String
  scheduler_params : SchedulerParams
  error_count : Nat
  last_error : Option String
deriving DecidableEq, Repr

/-- dynamo.py `mark_task_fired(task)`; `now` stands for `datetime.utcnow()`. -/
def mark_task_fired (task : Task) (now : Nat) : TaskUpdate :=
  let sp := task.scheduler_params
  let repeats_executed := sp.repeats_executed.getD 0 + 1
  let num_repeats := sp.num_repeats.getD 0
  let new_status := if num_repeats > 0 ∧ repeats_executed ≥ num_repeats
    then "inactive" else task.status
  let next_fire := if new_status == "active" then calculate_next_fire task now else none
  { last_fired := some now
    next_fire := next_fire
    status := new_status
    scheduler_params := { sp with repeats_executed := some repeats_executed }
    error_count := 0
    last_error := none }

/-- dynamo.py `record_task_error(task, error_message)`: the conditional
update writes exactly the attributes `error_count` and `last_error`,
every other attribute of the stored item is untouched. -/
def record_task_error (task : Task) (error_message : String) : Task :=
  { task with
    error_count := task.error_count + 1
    last_error := some error_message }

/-! ## Claims C5–C8 (dynamo.py) -/

/-- C5: for every task with `num_repeats > 0`, after `mark_task_fired`
increments `repeats_executed`, if the incremented count reaches
`num_repeats` then the persisted status is `'inactive'` and the
persisted `next_fire` is none, and `repeats_executed` is persisted as
the incremented value. -/
theorem claim_C5 (task : Task) (now : Nat)
    (h1 : 0 < task.scheduler_params.num_repeats.getD 0)
    (h2 : task.scheduler_params.num_repeats.getD 0 ≤
      task.scheduler_params.repeats_executed.getD 0 + 1) :
    (mark_task_fired task now).status = "inactive" ∧
    (mark_task_fired task now).next_fire = none ∧
    (mark_task_fired task now).scheduler_params.repeats_executed =
      some (task.scheduler_params.repeats_executed.getD 0 + 1) := by
  have hcond : task.scheduler_params.num_repeats.getD 0 > 0 ∧
      task.scheduler_params.repeats_executed.getD 0 + 1 ≥
        task.scheduler_params.num_repeats.getD 0 :=
    ⟨h1, h2⟩
  simp only [mark_task_fired, if_pos hcond]
  refine ⟨trivial, ?_, trivial⟩
  rfl

/-- The spec's concrete inactive-transition example: `num_repeats = 3`,
`repeats_executed = 2`, one successful firing. -/
def c5ExampleTask : Task :=
  { task_id := "task-1"
    target := "0x0001"
    scheduler_params := { num_repeats := some 3, repeats_executed := some 2 } }

/-- Witness for C5 at the spec's example: firing a task with
`num_repeats = 3` and `repeats_executed = 2` ends with
`repeats_executed = 3`, status inactive and no `next_fire`. -/
theorem claim_C5_witness :
    (mark_task_fired c5ExampleTask 100000).status = "inactive" ∧
    (mark_task_fired c5ExampleTask 100000).next_fire = none ∧
    (mark_task_fired c5ExampleTask 100000).scheduler_params.repeats_executed = some 3 := by
  have h := claim_C5 c5ExampleTask 100000 (by decide) (by decide)
  exact ⟨h.1, h.2.1, h.2.2⟩

/-- C6: `record_task_error` increments only `error_count` and sets
`last_error` to the error text; `next_fire`, `status`, `last_fired` and
`scheduler_params` are unchanged, so the due-scan predicate of
`get_due_tasks` selects the task after the error exactly when it
selected it before. -/
theorem claim_C6 (task : Task) (msg : String) (now : Nat) :
    (record_task_error task msg).next_fire = task.next_fire ∧
    (record_task_error task msg).status = task.status ∧
    (record_task_error task msg).last_fired = task.last_fired ∧
    (record_task_error task msg).scheduler_params = task.scheduler_params ∧
    (record_task_error task msg).error_count = task.error_count + 1 ∧
    (record_task_error task msg).last_error = some msg ∧
    is_due now (record_task_error task msg) = is_due now task :=
  ⟨rfl, rfl, rfl, rfl, rfl, rfl, rfl⟩

/-- C7: for every timestamp `t`, a `weekly:wednesday` recurrence with no
preferred time yields a `next_fire` that falls on a Wednesday (in the
source's Sunday-as-day-0 numbering, `(weekday + 1) % 7 = 3` where
`weekday` is Monday-based, i.e. `t / 1440 % 7`), is strictly after `t`,
and is at most 7 days (`7 * 1440` minutes) after `t`. -/
theorem claim_C7 (t : Nat) :
    ((calculate_recurring_next_fire t "weekly:wednesday" none / 1440 + 1) % 7 = 3) ∧
    t < calculate_recurring_next_fire t "weekly:wednesday" none ∧
    calculate_recurring_next_fire t "weekly:wednesday" none ≤ t + 7 * 1440 := by
  have hparse : weekdayNames.findIdx?
      (fun d => d == pyLower ((pySplit "weekly:wednesday" ':').getD 1 "")) = some 3 := by
    decide
  have hnothourly : ("weekly:wednesday" == "hourly") = false := by decide
  have hnotdaily : ("weekly:wednesday" == "daily") = false := by decide
  have hweekly : pyStartsWith "weekly:wednesday" "weekly:" = true := by decide
  unfold calculate_recurring_next_fire
  simp only [hparse, hnothourly, hnotdaily, hweekly, le_refl, if_true, if_pos,
    Bool.false_eq_true, if_false, ite_true, ite_false]
  have hw : t / 1440 % 7 < 7 := Nat.mod_lt _ (by norm_num)
  set w := t / 1440 % 7 with hwdef
  interval_cases w <;> norm_num <;> omega

/-- C8: with no recurring pattern, `calculate_next_fire` returns
`now + repeat_interval` minutes (default 60) when the interval is
non-zero, and `none` when the interval is zero. -/
theorem claim_C8 (task : Task) (now : Nat) (hrec : pyTruthy task.recurring = false) :
    calculate_next_fire task now =
      (if task.scheduler_params.repeat_interval.getD 60 = 0 then none
       else some (now + task.scheduler_params.repeat_interval.getD 60)) := by
  unfold calculate_next_fire
  rw [hrec]
  simp only [Bool.false_eq_true, if_false]
  by_cases h : task.scheduler_params.repeat_interval.getD 60 = 0 <;> simp [h]

/-- Witness for C8 at concrete inputs: a zero interval yields no further
firing, an absent interval defaults to 60 minutes from now. -/
theorem claim_C8_witness :
    calculate_next_fire
      { task_id := "t0", target := "x"
        scheduler_params := { repeat_interval := some 0 } } 500 = none ∧
    calculate_next_fire { task_id := "t1", target := "x" } 500 = some 560 := by
  constructor
  · rw [claim_C8 _ 500 (by decide)]; rfl
  · rw [claim_C8 _ 500 (by decide)]; rfl

/-! ## task_types/query_for_update.py : data shapes -/

/-- The `input` object of a Bedrock `toolUse` block, restricted to the
keys the tools read (`content`, `drone_id`, `reason`). -/
structure ToolInput where
  content : Option String := none
  drone_id : Option String := none
  reason : Option String := none
deriving DecidableEq, Repr

/-- One entry of `check_stale_config`'s `stale_fields` list (the
`current_value` key, whose type varies per category, is not carried in
the embedding). -/
structure StaleField where
  category : String
  field : String
  reason : String
deriving DecidableEq, Repr

/-- The `behavioral_matrices` sub-object of a drone configuration;
absent keys are `none` (`bm.get(field)` is `None`). -/
structure BehavioralMatrices where
  sadistic_kind_tolerance : Option Int := none
  control_autonomy_balance : Option Int := none
  punishment_reward_perception : Option Int := none
  degradation_pleasure_threshold : Option Int := none
  emptiness_presence_spectrum : Option Int := none
deriving DecidableEq, Repr

/-- The `boundary_mapping` sub-object of a drone configuration
(`bounds.get(field, [])` — an absent key is the empty list). -/
structure BoundaryMapping where
  red_limits : List String := []
  green_triggers : List String := []
  yellow_cautions : List String := []
deriving DecidableEq, Repr

/-- The `programming_metrics` sub-object of a drone configuration. -/
structure ProgrammingMetrics where
  recovery_requirements : Option String := none
deriving DecidableEq, Repr

/-- A drone's `configuration` record from the `cpu-drone-data` table
(after `convert_decimals`, which is the identity in this embedding since
numbers are already native). -/
structure DroneConfig where
  behavioral_matrices : BehavioralMatrices := {}
  boundary_mapping : BoundaryMapping := {}
  programming_metrics : ProgrammingMetrics := {}
deriving DecidableEq, Repr

/-- A Python result dictionary as produced by the tools and the
task-type handlers.  Absent keys are `none`; each handler populates the
keys its source writes. -/
structure PyDict where
  success : Option Bool := none
  skipped : Option Bool := none
  error : Option String := none
  reason : Option String := none
  message_id : Option String := none
  drone_id : Option String := none
  agent : Option String := none
  lambda_fn : Option String := none
  status_code : Option Nat := none
  question : Option String := none
  option_count : Option Nat := none
  drones : Option (List String) := none
  count : Option Nat := none
  total_drones : Option Nat := none
  configuration : Option DroneConfig := none
  stale_fields : Option (List StaleField) := none
  total_stale : Option Nat := none
  needs_attention : Option Bool := none
deriving DecidableEq, Repr

/-- A content block of a Bedrock Converse message: a text block, a
`toolUse` request, or a `toolResult` turn. -/
inductive Block where
  | text (s : String)
  | toolUse (id name : String) (input : ToolInput)
  | toolResult (id : String) (result : PyDict)
deriving DecidableEq, Repr

/-- A role-tagged conversation turn. -/
structure Message where
  role : String
  content : List Block
deriving DecidableEq, Repr

/-- The outcome of one `bedrock.converse` call: either an exception
(caught by the loop's `except`) or a response carrying `stopReason`
and `output.message.content`. -/
inductive ConverseOutcome where
  | exception (e : String)
  | response (stopReason : String) (content : List Block)
deriving DecidableEq, Repr

/-- The JSON body `tool_send_message` posts to `/task/execute`. -/
structure SendMessagePayload where
  agent_id : String
  channel_id : String
  content : String
  task_id : String
  target : String
deriving DecidableEq, Repr

/-- The JSON body `send_poll_to_dronebot` posts to `/task/poll`. -/
structure PollPayload where
  agent_id : String
  channel_id : String
  question : String
  options : List String
  duration_hours : Nat
  task_id : String
  target : String
deriving DecidableEq, Repr

/-- The payload message.py sends to an agent lambda. -/
structure AgentMessagePayload where
  action : String
  channel_id : Option String
  content : String
  target : String
  task_id : String
deriving DecidableEq, Repr

/-- The external collaborators of the scheduler core.

* `draw` — the value of `random.randint(0, 100)` in `process_task`;
* `roleMembers` — the Discord-bot role lookup (unreachable, see
  `resolve_role_members`);
* `converse` — the Bedrock reasoning backend.  The extra `Nat` is the
  number of `converse` calls already made in this handler invocation,
  so a backend whose answers differ from call to call (the general
  case) is expressible; the source passes only the message history;
* `scanDrones` — `table.scan` over `cpu-drone-data` (`droneid` column);
* `getDroneItem` — `table.get_item` for one drone, returning its
  `configuration` (or `none` when the item is absent);
* `choice` — `random.choice`, queried only on non-empty lists;
* `taskExecute` / `taskPoll` — the dronebot `/task/execute` and
  `/task/poll` endpoints; the `ok` case is the parsed JSON response
  (including the `HTTPError`/`URLError` dictionaries the source builds
  after catching those), the `error` case a raised exception;
* `lambdaInvoke` — the async agent-lambda invocation of message.py,
  `ok` carrying the response `StatusCode`;
* `dronebotUrl`, `dronebotToken`, `dateStr`, `timeStr` — the
  environment-variable configuration and the current UTC date/time
  strings used by `interpolate_content`. -/
structure Env where
  draw : Nat
  roleMembers : String → List String
  converse : Nat → List Message → ConverseOutcome
  scanDrones : Except String (List String)
  getDroneItem : String → Except String (Option DroneConfig)
  choice : List String → String
  taskExecute : SendMessagePayload → Except String PyDict
  taskPoll : PollPayload → Except String PyDict
  lambdaInvoke : String → AgentMessagePayload → Except String Nat
  dronebotUrl : String
  dronebotToken : String
  dateStr : String
  timeStr : String

/-! ## task_types/query_for_update.py : tools -/

/-- query_for_update.py `tool_list_drones`. -/
def tool_list_drones (env : Env) : Except String PyDict := do
  let drones ← env.scanDrones
  return { drones := some drones, count := some drones.length }

/-- query_for_update.py `tool_pick_random_drone`. -/
def tool_pick_random_drone (env : Env) : Except String PyDict := do
  let result ← tool_list_drones env
  let drones := result.drones.getD []
  if drones.isEmpty then
    return { error := some "No drones found in hive" }
  else
    return { drone_id := some (env.choice drones), total_drones := some drones.length }

/-- query_for_update.py `tool_get_drone_config`. -/
def tool_get_drone_config (env : Env) (drone_id : Option String) : Except String PyDict := do
  if !pyTruthy drone_id then
    return { error := some "drone_id is required" }
  else
    let item ← env.getDroneItem (drone_id.getD "")
    match item with
    | none => return { error := some ("Drone " ++ drone_id.getD "" ++ " not found") }
    | some config => return { drone_id := drone_id, configuration := some config }

/-- The `behavioral_fields` list of `tool_check_stale_config` paired
with the value `bm.get(field)` reads for each. -/
def behavioralFieldValues (bm : BehavioralMatrices) : List (String × Option Int) :=
  [("sadistic_kind_tolerance", bm.sadistic_kind_tolerance),
   ("control_autonomy_balance", bm.control_autonomy_balance),
   ("punishment_reward_perception", bm.punishment_reward_perception),
   ("degradation_pleasure_threshold", bm.degradation_pleasure_threshold),
   ("emptiness_presence_spectrum", bm.emptiness_presence_spectrum)]

/-- The `boundary_fields` list of `tool_check_stale_config` paired with
the value `bounds.get(field, [])` reads for each. -/
def boundaryFieldValues (bounds : BoundaryMapping) : List (String × List String) :=
  [("red_limits", bounds.red_limits),
   ("green_triggers", bounds.green_triggers),
   ("yellow_cautions", bounds.yellow_cautions)]

/-- query_for_update.py `tool_check_stale_config`. -/
def tool_check_stale_config (env : Env) (drone_id : Option String) : Except String PyDict := do
  let config_result ← tool_get_drone_config env drone_id
  if pyTruthy config_result.error then
    return config_result
  else
    let config := config_result.configuration.getD {}
    let bmStale := (behavioralFieldValues config.behavioral_matrices).filterMap
      fun fv =>
        if fv.2 = some 50 ∨ fv.2 = none then
          some ⟨"behavioral_matrices", fv.1,
            if fv.2 = some 50 then "default_value" else "missing"⟩
        else none
    let boundStale := (boundaryFieldValues config.boundary_mapping).filterMap
      fun fv =>
        if fv.2.isEmpty then some ⟨"boundary_mapping", fv.1, "empty"⟩ else none
    let pmStale :=
      if !pyTruthy config.programming_metrics.recovery_requirements then
        [(⟨"programming_metrics", "recovery_requirements", "empty"⟩ : StaleField)]
      else []
    let stale := bmStale ++ boundStale ++ pmStale
    return { drone_id := drone_id, stale_fields := some stale,
             total_stale := some stale.length,
             needs_attention := some (!stale.isEmpty) }

/-- query_for_update.py `tool_send_message`: the fail-fast validations,
then the POST to `/task/execute`.  The `ok` case of `env.taskExecute`
is the value the source returns directly (the parsed response or one of
the caught-transport-error dictionaries); a raised exception propagates
to `execute_tool`'s handler. -/
def tool_send_message (env : Env) (content drone_id channel_id : Option String)
    (assignee task_id : String) : Except String PyDict :=
  if !pyTruthy content then
    .ok { success := some false, error := some "Message content is required" }
  else if !pyTruthy drone_id then
    .ok { success := some false, error := some "drone_id is required" }
  else if !pyTruthy channel_id then
    .ok { success := some false, error := some "channel_id not available" }
  else if env.dronebotUrl.isEmpty then
    .ok { success := some false, error := some "DRONEBOT_URL not configured" }
  else if env.dronebotToken.isEmpty then
    .ok { success := some false, error := some "DRONEBOT_API_TOKEN not configured" }
  else
    env.taskExecute
      { agent_id := assignee, channel_id := channel_id.getD ""
        content := content.getD "", task_id := task_id, target := drone_id.getD "" }

/-- query_for_update.py `execute_tool`: tool dispatch with the
surrounding `try`/`except` that turns any raised exception into an
`error` dictionary. -/
def execute_tool (env : Env) (tool_name : String) (tool_input : ToolInput)
    (channel_id : Option String) (assignee task_id : String) : PyDict :=
  let body : Except String PyDict :=
    if tool_name == "list_drones" then tool_list_drones env
    else if tool_name == "pick_random_drone" then tool_pick_random_drone env
    else if tool_name == "get_drone_config" then
      tool_get_drone_config env tool_input.drone_id
    else if tool_name == "check_stale_config" then
      tool_check_stale_config env tool_input.drone_id
    else if tool_name == "send_message" then
      tool_send_message env tool_input.content tool_input.drone_id channel_id
        assignee task_id
    else if tool_name == "skip_message" then
      .ok { success := some true, skipped := some true, reason := tool_input.reason }
    else .ok { error := some ("Unknown tool: " ++ tool_name) }
  match body with
  | .ok d => d
  | .error e => { error := some e }

/-! ## task_types/query_for_update.py : the agentic tool loop -/

/-- The dictionary `handle_query_for_update` returns.  All keys except
`success` are optional; `iterations` is absent only on the
missing-prompt early return. -/
structure QfuResult where
  success : Bool
  message_sent : Option Bool := none
  iterations : Option Nat := none
  error : Option String := none
  reason : Option String := none
  message_id : Option String := none
  drone_id : Option String := none
  llm_response : Option String := none
deriving DecidableEq, Repr

/-- Outcome of the per-block `for block in assistant_content` loop of
`handle_query_for_update`: either an early `return` triggered by a
terminal tool (a succeeding `send_message`, or any `skip_message`), or
the accumulated `tool_results` turn with which the loop continues. -/
inductive BlocksOutcome where
  | sent (message_id drone_id : Option String)
  | skip (reason : Option String)
  | next (toolResults : List Block)
deriving DecidableEq, Repr

/-- The `for block in assistant_content` body of
`handle_query_for_update`: blocks without a `toolUse` key are skipped;
each tool use is executed, its result appended as a `toolResult`; a
succeeding `send_message` returns `message_sent=true`, a `skip_message`
returns `message_sent=false` with the requested reason (default
`no_action_needed`). -/
def process_blocks (env : Env) (channel_id : Option String) (assignee task_id : String) :
    List Block → List Block → BlocksOutcome
  | [], acc => .next acc
  | b :: bs, acc =>
    match b with
    | .toolUse id name input =>
      let result := execute_tool env name input channel_id assignee task_id
      if name == "send_message" && (result.success == some true) then
        .sent result.message_id input.drone_id
      else if name == "skip_message" then
        .skip (some (input.reason.getD "no_action_needed"))
      else
        process_blocks env channel_id assignee task_id bs (acc ++ [.toolResult id result])
    | _ => process_blocks env channel_id assignee task_id bs acc

/-- The first `text` block of a message's content, or `''` — the
`text_content` extraction of the `end_turn` branch. -/
def first_text : List Block → String
  | [] => ""
  | .text s :: _ => s
  | _ :: bs => first_text bs

/-- The `for i in range(max_iterations)` loop of
`handle_query_for_update`.  `fuel` is the number of iterations still
allowed (initially `max_iterations`), `i` the 0-based iteration index,
`msgs` the conversation so far and `calls` the number of
`bedrock.converse` invocations already made; the second component of
the result is the total number of backend invocations (an
instrumentation counter, not part of the Python return value). -/
def qfu_loop (env : Env) (channel_id : Option String) (assignee task_id : String)
    (max_iterations : Nat) : Nat → Nat → List Message → Nat → QfuResult × Nat
  | 0, _i, _msgs, calls =>
    ({ success := false, error := some "max_iterations_reached",
       iterations := some max_iterations }, calls)
  | fuel + 1, i, msgs, calls =>
    match env.converse calls msgs with
    | .exception e =>
      ({ success := false, error := some e, iterations := some (i + 1) }, calls + 1)
    | .response stop content =>
      if stop == "tool_use" then
        match process_blocks env channel_id assignee task_id content [] with
        | .sent mid did =>
          ({ success := true, message_sent := some true, iterations := some (i + 1),
             message_id := mid, drone_id := did }, calls + 1)
        | .skip r =>
          ({ success := true, message_sent := some false, reason := r,
             iterations := some (i + 1) }, calls + 1)
        | .next trs =>
          qfu_loop env channel_id assignee task_id max_iterations fuel (i + 1)
            (msgs ++ [⟨"assistant", content⟩, ⟨"user", trs⟩]) (calls + 1)
      else if stop == "end_turn" then
        ({ success := true, message_sent := some false,
           reason := some "llm_ended_without_action",
           llm_response := some (pyTake 500 (first_text content)),
           iterations := some (i + 1) }, calls + 1)
      else
        ({ success := false, error := some ("Unexpected stop_reason: " ++ stop),
           iterations := some (i + 1) }, calls + 1)

/-- The `max_iterations` coercion of `handle_query_for_update`:
`int(raw) if raw else 5` with a `dict.get(..., 5)` default — an absent
or zero (falsy) value yields 5. -/
def qfuMaxIterations (task : Task) : Nat :=
  match task.agent_max_iterations with
  | none => 5
  | some n => if n = 0 then 5 else n

/-- query_for_update.py `handle_query_for_update(task, target, channel_id)`.
The second component counts `bedrock.converse` invocations.  The
`target` parameter is unused by the source body (the drone to message
is chosen by the backend via the tool inputs). -/
def handle_query_for_update (env : Env) (task : Task) (_target : String)
    (channel_id : Option String) : QfuResult × Nat :=
  let max_iterations := qfuMaxIterations task
  let assignee := task.assignee.getD "void-mother"
  let content_prompt := task.payload_content.getD ""
  let task_id := task.task_id
  if content_prompt.isEmpty then
    ({ success := false, error := some "No content prompt provided" }, 0)
  else
    qfu_loop env channel_id assignee task_id max_iterations max_iterations 0
      [⟨"user", [.text content_prompt]⟩] 0

/-! ## Claims C1 and C4 (the agentic tool loop) -/

/-- The reasoning backend's response at call index `j` is a tool-use
round that does not terminate the loop (no `skip_message` block and no
succeeding `send_message` block), whatever the conversation history. -/
def NonTerminalAt (env : Env) (channel_id : Option String) (assignee task_id : String)
    (j : Nat) : Prop :=
  ∀ msgs, ∃ blocks trs, env.converse j msgs = .response "tool_use" blocks ∧
    process_blocks env channel_id assignee task_id blocks [] = .next trs

/-- The reasoning backend's response at call index `j` requests
`skip_message`, the per-block loop resolving to reason `r`, whatever
the conversation history. -/
def SkipAt (env : Env) (channel_id : Option String) (assignee task_id : String)
    (j : Nat) (r : Option String) : Prop :=
  ∀ msgs, ∃ blocks, env.converse j msgs = .response "tool_use" blocks ∧
    process_blocks env channel_id assignee task_id blocks [] = .skip r

/-- The loop makes at most one backend invocation per unit of fuel. -/
theorem qfu_loop_calls_le (env : Env) (cid : Option String) (a tid : String) (mi : Nat) :
    ∀ (fuel i calls : Nat) (msgs : List Message),
      (qfu_loop env cid a tid mi fuel i msgs calls).2 ≤ calls + fuel := by
  intro fuel
  induction fuel with
  | zero => intro i calls msgs; simp [qfu_loop]
  | succ f ih =>
    intro i calls msgs
    rcases henv : env.converse calls msgs with e | ⟨stop, content⟩
    · simp [qfu_loop, henv]
    · by_cases h1 : (stop == "tool_use") = true
      · cases hpb : process_blocks env cid a tid content [] with
        | sent mid did => simp [qfu_loop, henv, h1, hpb]
        | skip r => simp [qfu_loop, henv, h1, hpb]
        | next trs =>
          simp only [qfu_loop, henv, h1, hpb, if_true]
          have := ih (i + 1) (calls + 1) (msgs ++ [⟨"assistant", content⟩, ⟨"user", trs⟩])
          omega
      · by_cases h2 : (stop == "end_turn") = true
        · simp [qfu_loop, henv, h1, h2]
        · simp [qfu_loop, henv, h1, h2]

/-- The accumulated call counter never decreases. -/
theorem qfu_loop_calls_ge (env : Env) (cid : Option String) (a tid : String) (mi : Nat) :
    ∀ (fuel i calls : Nat) (msgs : List Message),
      calls ≤ (qfu_loop env cid a tid mi fuel i msgs calls).2 := by
  intro fuel
  induction fuel with
  | zero => intro i calls msgs; simp [qfu_loop]
  | succ f ih =>
    intro i calls msgs
    rcases henv : env.converse calls msgs with e | ⟨stop, content⟩
    · simp [qfu_loop, henv]
    · by_cases h1 : (stop == "tool_use") = true
      · cases hpb : process_blocks env cid a tid content [] with
        | sent mid did => simp [qfu_loop, henv, h1, hpb]
        | skip r => simp [qfu_loop, henv, h1, hpb]
        | next trs =>
          simp only [qfu_loop, henv, h1, hpb, if_true]
          have := ih (i + 1) (calls + 1) (msgs ++ [⟨"assistant", content⟩, ⟨"user", trs⟩])
          omega
      · by_cases h2 : (stop == "end_turn") = true
        · simp [qfu_loop, henv, h1, h2]
        · simp [qfu_loop, henv, h1, h2]

/-- When every remaining backend response is non-terminal, the loop
exhausts its fuel, reports `max_iterations_reached` and has invoked the
backend exactly `fuel` more times. -/
theorem qfu_loop_max (env : Env) (cid : Option String) (a tid : String) (mi : Nat) :
    ∀ (fuel i calls : Nat) (msgs : List Message),
      (∀ j, calls ≤ j → j < calls + fuel → NonTerminalAt env cid a tid j) →
      qfu_loop env cid a tid mi fuel i msgs calls =
        ({ success := false, error := some "max_iterations_reached",
           iterations := some mi }, calls + fuel) := by
  intro fuel
  induction fuel with
  | zero => intro i calls msgs _; simp [qfu_loop]
  | succ f ih =>
    intro i calls msgs hnt
    obtain ⟨blocks, trs, henv, hpb⟩ := hnt calls (le_refl _) (by omega) msgs
    have ht : ("tool_use" == "tool_use") = true := by decide
    simp only [qfu_loop, henv, hpb, ht, if_true]
    rw [ih (i + 1) (calls + 1) _ (fun j hj1 hj2 => hnt j (by omega) (by omega))]
    rw [show calls + 1 + f = calls + (f + 1) by omega]

/-- When backend responses are non-terminal for `k` calls and then
request `skip_message`, the loop ends successfully with
`message_sent = false` after exactly `k + 1` further invocations. -/
theorem qfu_loop_skip (env : Env) (cid : Option String) (a tid : String) (mi : Nat)
    (r : Option String) :
    ∀ (k fuel i calls : Nat) (msgs : List Message),
      k < fuel →
      (∀ j, calls ≤ j → j < calls + k → NonTerminalAt env cid a tid j) →
      SkipAt env cid a tid (calls + k) r →
      qfu_loop env cid a tid mi fuel i msgs calls =
        ({ success := true, message_sent := some false, reason := r,
           iterations := some (i + k + 1) }, calls + k + 1) := by
  intro k
  induction k with
  | zero =>
    intro fuel i calls msgs hk _ hskip
    obtain ⟨f, rfl⟩ : ∃ f, fuel = f + 1 := ⟨fuel - 1, by omega⟩
    obtain ⟨blocks, henv, hpb⟩ := hskip msgs
    simp only [Nat.add_zero] at henv
    simp [qfu_loop, henv, hpb]
  | succ k ih =>
    intro fuel i calls msgs hk hnt hskip
    obtain ⟨f, rfl⟩ : ∃ f, fuel = f + 1 := ⟨fuel - 1, by omega⟩
    obtain ⟨blocks, trs, henv, hpb⟩ := hnt calls (le_refl _) (by omega) msgs
    have ht : ("tool_use" == "tool_use") = true := by decide
    simp only [qfu_loop, henv, hpb, ht, if_true]
    rw [ih f (i + 1) (calls + 1) _ (by omega)
      (fun j hj1 hj2 => hnt j (by omega) (by omega))
      (by rw [show calls + 1 + k = calls + (k + 1) by omega]; exact hskip)]
    rw [show i + 1 + k + 1 = i + (k + 1) + 1 by omega,
      show calls + 1 + k + 1 = calls + (k + 1) + 1 by omega]

/-- With fuel remaining, the loop always makes at least one backend
invocation. -/
theorem qfu_loop_pos (env : Env) (cid : Option String) (a tid : String) (mi : Nat)
    (fuel i calls : Nat) (msgs : List Message) (hf : 0 < fuel) :
    calls + 1 ≤ (qfu_loop env cid a tid mi fuel i msgs calls).2 := by
  obtain ⟨f, rfl⟩ : ∃ f, fuel = f + 1 := ⟨fuel - 1, by omega⟩
  rcases henv : env.converse calls msgs with e | ⟨stop, content⟩
  · simp [qfu_loop, henv]
  · by_cases h1 : (stop == "tool_use") = true
    · cases hpb : process_blocks env cid a tid content [] with
      | sent mid did => simp [qfu_loop, henv, h1, hpb]
      | skip r => simp [qfu_loop, henv, h1, hpb]
      | next trs =>
        simp only [qfu_loop, henv, h1, hpb, if_true]
        have := qfu_loop_calls_ge env cid a tid mi f (i + 1) (calls + 1)
          (msgs ++ [⟨"assistant", content⟩, ⟨"user", trs⟩])
        omega
    · by_cases h2 : (stop == "end_turn") = true
      · simp [qfu_loop, henv, h1, h2]
      · simp [qfu_loop, henv, h1, h2]

/-- After `k + 1` non-terminal responses with fuel to spare, the loop
invokes the backend at least once more: a non-terminal round (which
covers failing tool calls) never ends the loop while fuel remains. -/
theorem qfu_loop_continue (env : Env) (cid : Option String) (a tid : String) (mi : Nat) :
    ∀ (k fuel i calls : Nat) (msgs : List Message),
      k + 1 < fuel →
      (∀ j, calls ≤ j → j ≤ calls + k → NonTerminalAt env cid a tid j) →
      calls + k + 2 ≤ (qfu_loop env cid a tid mi fuel i msgs calls).2 := by
  intro k
  induction k with
  | zero =>
    intro fuel i calls msgs hk hnt
    obtain ⟨f, rfl⟩ : ∃ f, fuel = f + 1 := ⟨fuel - 1, by omega⟩
    obtain ⟨blocks, trs, henv, hpb⟩ := hnt calls (le_refl _) (by omega) msgs
    have ht : ("tool_use" == "tool_use") = true := by decide
    simp only [qfu_loop, henv, hpb, ht, if_true]
    have := qfu_loop_pos env cid a tid mi f (i + 1) (calls + 1)
      (msgs ++ [⟨"assistant", blocks⟩, ⟨"user", trs⟩]) (by omega)
    omega
  | succ k ih =>
    intro fuel i calls msgs hk hnt
    obtain ⟨f, rfl⟩ : ∃ f, fuel = f + 1 := ⟨fuel - 1, by omega⟩
    obtain ⟨blocks, trs, henv, hpb⟩ := hnt calls (le_refl _) (by omega) msgs
    have ht : ("tool_use" == "tool_use") = true := by decide
    simp only [qfu_loop, henv, hpb, ht, if_true]
    have := ih f (i + 1) (calls + 1) (msgs ++ [⟨"assistant", blocks⟩, ⟨"user", trs⟩])
      (by omega) (fun j hj1 hj2 => hnt j (by omega) (by omega))
    omega

/-- A block list in which every tool use avoids `skip_message` and in
which every `send_message` execution fails (its result not reporting
success) — which includes unknown tool names and every failing
non-terminal tool — lets `process_blocks` run to the end and continue
the loop with the accumulated tool results. -/
theorem process_blocks_next (env : Env) (cid : Option String) (a tid : String) :
    ∀ (blocks acc : List Block),
      (∀ id name input, Block.toolUse id name input ∈ blocks →
        (name == "skip_message") = false ∧
        ((name == "send_message") = true →
          ((execute_tool env name input cid a tid).success == some true) = false)) →
      ∃ trs, process_blocks env cid a tid blocks acc = .next trs := by
  intro blocks
  induction blocks with
  | nil => intro acc _; exact ⟨acc, rfl⟩
  | cons b bs ih =>
    intro acc hb
    cases b with
    | text s =>
      simp only [process_blocks]
      exact ih acc (fun id name input hmem => hb id name input (by simp [hmem]))
    | toolResult id res =>
      simp only [process_blocks]
      exact ih acc (fun id name input hmem => hb id name input (by simp [hmem]))
    | toolUse id name input =>
      obtain ⟨hskip, hsend⟩ := hb id name input (by simp)
      simp only [process_blocks, hskip]
      by_cases hsd : (name == "send_message") = true
      · rw [hsd, hsend hsd]
        simp only [Bool.true_and, Bool.false_eq_true, if_false, ite_false]
        exact ih _ (fun id name input hmem => hb id name input (by simp [hmem]))
      · have hsd2 : (name == "send_message") = false := by
          simpa using hsd
        rw [hsd2]
        simp only [Bool.false_and, Bool.false_eq_true, if_false, ite_false]
        exact ih _ (fun id name input hmem => hb id name input (by simp [hmem]))

/-- C1: the agentic loop invokes the reasoning backend at most
`max_iterations` times (second component of `handle_query_for_update`
counts invocations); if calls `0 .. i-1` are non-terminal and call `i`
(0-based, so the backend's `(i+1)`-st invocation — "iteration `i+1`")
requests `skip_message`, the loop returns success with
`message_sent = false` and `iterations = i + 1` after exactly `i + 1`
invocations, never invoking the backend again; and if all
`max_iterations` rounds are non-terminal, the loop returns failure
`max_iterations_reached` with `iterations = max_iterations`. -/
theorem claim_C1 (env : Env) (task : Task) (target : String) (channel_id : Option String) :
    (handle_query_for_update env task target channel_id).2 ≤ qfuMaxIterations task ∧
    (∀ i r, (task.payload_content.getD "").isEmpty = false →
      i < qfuMaxIterations task →
      (∀ j, j < i →
        NonTerminalAt env channel_id (task.assignee.getD "void-mother") task.task_id j) →
      SkipAt env channel_id (task.assignee.getD "void-mother") task.task_id i r →
      handle_query_for_update env task target channel_id =
        ({ success := true, message_sent := some false, reason := r,
           iterations := some (i + 1) }, i + 1)) ∧
    ((task.payload_content.getD "").isEmpty = false →
      (∀ j, j < qfuMaxIterations task →
        NonTerminalAt env channel_id (task.assignee.getD "void-mother") task.task_id j) →
      handle_query_for_update env task target channel_id =
        ({ success := false, error := some "max_iterations_reached",
           iterations := some (qfuMaxIterations task) }, qfuMaxIterations task)) := by
  refine ⟨?_, ?_, ?_⟩
  · by_cases h : (task.payload_content.getD "").isEmpty = true
    · simp [handle_query_for_update, h]
    · rw [Bool.not_eq_true] at h
      simp only [handle_query_for_update, h, Bool.false_eq_true, if_false]
      have := qfu_loop_calls_le env channel_id (task.assignee.getD "void-mother")
        task.task_id (qfuMaxIterations task) (qfuMaxIterations task) 0 0
        [⟨"user", [.text (task.payload_content.getD "")]⟩]
      omega
  · intro i r hc hi hnt hskip
    simp only [handle_query_for_update, hc, Bool.false_eq_true, if_false]
    have := qfu_loop_skip env channel_id (task.assignee.getD "void-mother") task.task_id
      (qfuMaxIterations task) r i (qfuMaxIterations task) 0 0
      [⟨"user", [.text (task.payload_content.getD "")]⟩] hi
      (fun j hj1 hj2 => hnt j (by omega))
      (by simpa using hskip)
    simpa using this
  · intro hc hnt
    simp only [handle_query_for_update, hc, Bool.false_eq_true, if_false]
    have := qfu_loop_max env channel_id (task.assignee.getD "void-mother") task.task_id
      (qfuMaxIterations task) (qfuMaxIterations task) 0 0
      [⟨"user", [.text (task.payload_content.getD "")]⟩]
      (fun j hj1 hj2 => hnt j (by omega))
    simpa using this

/-- A scripted backend for the spec's termination test: a non-terminal
`list_drones` round on the first call, `skip_message` on the second. -/
def c1ScriptEnv : Env :=
  { draw := 0
    roleMembers := fun _ => []
    converse := fun j _ =>
      if j = 0 then .response "tool_use" [.toolUse "t1" "list_drones" {}]
      else .response "tool_use" [.toolUse "t2" "skip_message" { reason := some "config_complete" }]
    scanDrones := .ok ["0x3604"]
    getDroneItem := fun _ => .ok none
    choice := fun l => l.headD ""
    taskExecute := fun _ => .error "unreachable"
    taskPoll := fun _ => .error "unreachable"
    lambdaInvoke := fun _ _ => .ok 202
    dronebotUrl := "http://localhost:3000"
    dronebotToken := "tok"
    dateStr := "2026-01-01"
    timeStr := "00:00" }

/-- A QUERY-FOR-UPDATE task with default `max_iterations` (5). -/
def c1Task : Task :=
  { task_id := "qfu-1"
    target := "0x3604"
    type := some "QUERY-FOR-UPDATE"
    payload_content := some "Check the drone config." }

/-- Witness for C1 at the spec's scripted-backend example: skip on
iteration 2 yields success, `message_sent = false`, `iterations = 2`,
and exactly 2 backend invocations. -/
theorem claim_C1_witness :
    handle_query_for_update c1ScriptEnv c1Task "0x3604" (some "123") =
      ({ success := true, message_sent := some false, reason := some "config_complete",
         iterations := some 2 }, 2) := by
  have h := (claim_C1 c1ScriptEnv c1Task "0x3604" (some "123")).2.1 1
    (some "config_complete") (by decide) (by decide)
    (fun j hj => by
      have hj0 : j = 0 := by omega
      subst hj0
      exact fun msgs => ⟨_, _, rfl, rfl⟩)
    (fun msgs => ⟨_, rfl, rfl⟩)
  exact h

/-- A scripted backend refuting C4's terminal-failure clause: the first
call requests `send_message` with no content (so the tool fails with
`Message content is required`), the second requests `skip_message`. -/
def c4ScriptEnv : Env :=
  { draw := 0
    roleMembers := fun _ => []
    converse := fun j _ =>
      if j = 0 then
        .response "tool_use" [.toolUse "t1" "send_message" { drone_id := some "0x3604" }]
      else .response "tool_use" [.toolUse "t2" "skip_message" {}]
    scanDrones := .ok []
    getDroneItem := fun _ => .ok none
    choice := fun l => l.headD ""
    taskExecute := fun _ => .error "unreachable"
    taskPoll := fun _ => .error "unreachable"
    lambdaInvoke := fun _ _ => .ok 202
    dronebotUrl := "http://localhost:3000"
    dronebotToken := "tok"
    dateStr := "2026-01-01"
    timeStr := "00:00" }

/-- A QUERY-FOR-UPDATE task for the C4 counterexample. -/
def c4Task : Task :=
  { task_id := "qfu-2"
    target := "0x3604"
    type := some "QUERY-FOR-UPDATE"
    payload_content := some "Send the reminder." }

/-- Counterexample to C4 as stated: on the first invocation the
terminal tool `send_message` fails (`Message content is required`),
yet the loop does NOT end with a failure result for that invocation —
it records the failure as a tool-result turn, invokes the backend a
second time, and ends successfully via the scripted `skip_message`
(`iterations = 2`, two backend invocations). -/
theorem claim_C4_counterexample :
    (execute_tool c4ScriptEnv "send_message" { drone_id := some "0x3604" } (some "123")
      "void-mother" "qfu-2").success = some false ∧
    (execute_tool c4ScriptEnv "send_message" { drone_id := some "0x3604" } (some "123")
      "void-mother" "qfu-2").error = some "Message content is required" ∧
    handle_query_for_update c4ScriptEnv c4Task "0x3604" (some "123") =
      ({ success := true, message_sent := some false, reason := some "no_action_needed",
         iterations := some 2 }, 2) ∧
    (handle_query_for_update c4ScriptEnv c4Task "0x3604" (some "123")).1.success ≠ false := by
  refine ⟨rfl, rfl, rfl, by decide⟩

/-- C4 (amended): a tool-call failure in a non-terminal tool (including
an unknown tool name) is recorded as a tool-result turn and the loop
continues — and the same holds for a FAILING terminal `send_message`:
any tool-use round whose tool calls avoid `skip_message` and contain no
succeeding `send_message` leaves the per-block loop in the continue
state, and with fuel remaining the backend is invoked again (only a
succeeding `send_message` or any `skip_message` ends the loop from a
tool round). -/
theorem claim_C4 (env : Env) (task : Task) (target : String) (channel_id : Option String) :
    (∀ blocks acc,
      (∀ id name input, Block.toolUse id name input ∈ blocks →
        (name == "skip_message") = false ∧
        ((name == "send_message") = true →
          ((execute_tool env name input channel_id (task.assignee.getD "void-mother")
            task.task_id).success == some true) = false)) →
      ∃ trs, process_blocks env channel_id (task.assignee.getD "void-mother") task.task_id
        blocks acc = .next trs) ∧
    (∀ i, (task.payload_content.getD "").isEmpty = false →
      i + 1 < qfuMaxIterations task →
      (∀ j, j ≤ i →
        NonTerminalAt env channel_id (task.assignee.getD "void-mother") task.task_id j) →
      i + 2 ≤ (handle_query_for_update env task target channel_id).2) := by
  constructor
  · exact process_blocks_next env channel_id (task.assignee.getD "void-mother") task.task_id
  · intro i hc hi hnt
    simp only [handle_query_for_update, hc, Bool.false_eq_true, if_false]
    have := qfu_loop_continue env channel_id (task.assignee.getD "void-mother") task.task_id
      (qfuMaxIterations task) i (qfuMaxIterations task) 0 0
      [⟨"user", [.text (task.payload_content.getD "")]⟩] hi
      (fun j hj1 hj2 => hnt j (by omega))
    omega

/-- Witness for the amended C4: after the failing `send_message` round
the backend is invoked a second time. -/
theorem claim_C4_witness :
    2 ≤ (handle_query_for_update c4ScriptEnv c4Task "0x3604" (some "123")).2 := by
  have h := (claim_C4 c4ScriptEnv c4Task "0x3604" (some "123")).2 0 (by decide) (by decide)
    (fun j hj => by
      have hj0 : j = 0 := by omega
      subst hj0
      exact fun msgs => ⟨_, _, rfl, rfl⟩)
  simpa using h

/-! ## task_types/message.py -/

/-- The `AGENT_LAMBDAS` mapping of message.py. -/
def AGENT_LAMBDAS : List (String × String) :=
  [("void-mother", "void-mother-chat"),
   ("0xf100", "greeter-drone"),
   ("0xf101", "propaganda-drone")]

/-- message.py `interpolate_content(content, target, task)`; `env`
supplies the current UTC date and time strings. -/
def interpolate_content (env : Env) (content : String) (target : String)
    (task : Task) : String :=
  let replacements : List (String × String) :=
    [("{target}",
      if !pyStartsWith target "role:" then "<@" ++ target ++ ">"
      else "<@&" ++ target.drop 5 ++ ">"),
     ("{date}", env.dateStr),
     ("{time}", env.timeStr),
     ("{title}", task.title.getD ""),
     ("{task_id}", task.task_id)]
  replacements.foldl (fun c kv => c.replace kv.1 kv.2) content

/-- message.py `handle_message(task, target, channel_id)` — note: the
function as defined takes exactly these three parameters. -/
def handle_message (env : Env) (task : Task) (target : String)
    (channel_id : Option String) : PyDict :=
  let content := task.payload_content.getD ""
  let assignee := task.assignee.getD "void-mother"
  if content.isEmpty then
    { success := some false, error := some "No message content provided" }
  else
    let content := interpolate_content env content target task
    match AGENT_LAMBDAS.lookup assignee with
    | none => { success := some false, error := some ("Unknown agent: " ++ assignee) }
    | some agent_lambda =>
      match env.lambdaInvoke agent_lambda
        { action := "send_message", channel_id := channel_id, content := content
          target := target, task_id := task.task_id } with
      | .ok status =>
        { success := some true, agent := some assignee,
          lambda_fn := some agent_lambda, status_code := some status }
      | .error e => { success := some false, error := some e }

/-! ## task_types/poll.py -/

/-- poll.py `send_poll_to_dronebot`: configuration checks, then the
POST to `/task/poll`; the `ok` case of `env.taskPoll` is the value the
source returns (parsed response or the caught-transport-error
dictionaries), the `error` case an exception escaping to
`handle_poll`'s handler. -/
def send_poll_to_dronebot (env : Env) (channel_id question : String)
    (options : List String) (duration_hours : Nat) (agent_id task_id target : String) :
    Except String PyDict :=
  if env.dronebotUrl.isEmpty then
    .ok { success := some false, error := some "DRONEBOT_URL not configured" }
  else if env.dronebotToken.isEmpty then
    .ok { success := some false, error := some "DRONEBOT_API_TOKEN not configured" }
  else
    env.taskPoll
      { agent_id := agent_id, channel_id := channel_id, question := question
        options := options, duration_hours := duration_hours
        task_id := task_id, target := target }

/-- poll.py `handle_poll(task, target, channel_id)`.  The
`duration_hours` coercion is `int(duration_hours) if duration_hours
else 24` (absent or zero — falsy — yields 24). -/
def handle_poll (env : Env) (task : Task) (target : String)
    (channel_id : Option String) : PyDict :=
  let question := task.payload_question.getD ""
  let options := task.payload_options
  let duration_hours := match task.payload_duration_hours with
    | some d => if d = 0 then 24 else d
    | none => 24
  let assignee := task.assignee.getD "void-mother"
  let task_id := task.task_id
  if question.isEmpty then
    { success := some false, error := some "No poll question provided" }
  else if options.isEmpty || options.length < 2 then
    { success := some false, error := some "Poll requires at least 2 options" }
  else if options.length > 10 then
    { success := some false, error := some "Poll cannot have more than 10 options" }
  else if (task.channel.getD "dm") == "dm" || (task.channel.getD "dm") == "group-dm" then
    { success := some false, error := some "Cannot create poll in DM channels" }
  else if !pyTruthy channel_id then
    { success := some false, error := some "No channel_id available" }
  else
    match send_poll_to_dronebot env (channel_id.getD "") question options duration_hours
      assignee task_id target with
    | .ok result =>
      if result.success == some true then
        { success := some true, agent := some assignee, message_id := result.message_id,
          question := some question, option_count := some options.length }
      else
        { success := some false,
          error := some ("Poll creation error: " ++ result.error.getD "Unknown poll error") }
    | .error e => { success := some false, error := some ("HTTP error: " ++ e) }

/-! ## handler.py -/

/-- The names bound at module level in handler.py (imports, globals and
top-level functions).  `DISCORD_BOT_LAMBDA`, which
`resolve_role_members` reads, is NOT among them — the read raises
`NameError` at call time. -/
def handlerModuleGlobals : List String :=
  ["json", "random", "logging", "boto3", "os", "urllib", "datetime", "dynamo",
   "handle_message", "handle_poll", "handle_query_for_update", "logger",
   "DRONEBOT_URL", "DRONEBOT_TOKEN", "lambda_client", "handler", "process_task",
   "expand_targets", "resolve_role_members", "resolve_channel", "alert_cpu_errors"]

/-- handler.py `resolve_role_members(role_name)`: the body's first
statement references the global name `DISCORD_BOT_LAMBDA`, which is
defined nowhere in the module, so the `lambda_client.invoke` call
raises `NameError`; the surrounding `except Exception` logs it and the
function returns `[]`.  Were the name defined, the external lookup
(`env.roleMembers`) would be consulted. -/
def resolve_role_members (env : Env) (role_name : String) : List String :=
  if "DISCORD_BOT_LAMBDA" ∈ handlerModuleGlobals then env.roleMembers role_name
  else []

/-- The `list(set(expanded))` deduplication of `expand_targets`,
keeping the first occurrence of each element (Python's set iteration
order is unspecified; any order satisfies the claims below). -/
def pyDedupAux (seen : List String) : List String → List String
  | [] => []
  | t :: ts => if t ∈ seen then pyDedupAux seen ts else t :: pyDedupAux (t :: seen) ts

/-- handler.py `expand_targets(targets)`: role references are expanded
through `resolve_role_members`, plain entries kept, and the result
deduplicated. -/
def expand_targets (env : Env) (targets : List String) : List String :=
  pyDedupAux []
    (targets.flatMap fun t =>
      if pyStartsWith t "role:" then resolve_role_members env (t.drop 5) else [t])

/-- handler.py `resolve_channel(channel_type, target, task)`. -/
def resolve_channel (channel_type : String) (target : String) (task : Task) :
    Option String × Option String :=
  if pyTruthy task.channel_id then (task.channel_id, none)
  else if pyIsDigit channel_type then (some channel_type, none)
  else if channel_type == "dm" then (none, some target)
  else (none, none)

/-- Parameter count of `handle_message` as defined in
task_types/message.py (`task, target, channel_id`). -/
def handle_message_param_count : Nat := 3

/-- Number of positional arguments both `handle_message(...)` call
sites in `process_task` pass (`task, target, channel_id, user_id`
resp. `task, all_targets, channel_id, None`). -/
def process_task_message_arg_count : Nat := 4

/-- The `handle_message(...)` call as written in `process_task`.  In
Python the arity check happens at call time: passing 4 positional
arguments to a 3-parameter function raises `TypeError` before the
handler body runs, and the dispatch `try` converts `str(e)` into a
failure.  The fourth argument (`user_id`) is recorded but unusable. -/
def call_handle_message4 (env : Env) (task : Task) (target : String)
    (channel_id _user_id : Option String) : Except String PyDict :=
  if process_task_message_arg_count ≤ handle_message_param_count then
    .ok (handle_message env task target channel_id)
  else
    .error "handle_message() takes 3 positional arguments but 4 were given"

/-- A `{'target': ..., **result}` entry of `target_results`; `success`
is the Python truthiness of `result.get('success')`. -/
structure TargetResult where
  target : String
  success : Bool
  error : Option String := none
deriving DecidableEq, Repr

/-- The DynamoDB write `process_task` performs after the dispatch loop:
`mark_task_fired` on overall success, else `record_task_error` with the
concatenated failure detail. -/
inductive DynamoAction where
  | markFired
  | recordError (msg : String)
deriving DecidableEq, Repr

/-- The dictionary `process_task` returns, together with the state
update it performs (`action`; `none` on the skip paths, which update
nothing). -/
structure ProcessOutcome where
  skipped : Bool := false
  reason : Option String := none
  fired : Bool := false
  error : Bool := false
  targets : List TargetResult := []
  action : Option DynamoAction := none
deriving DecidableEq, Repr

/-- One round of the `for target in targets` dispatch loop of
`process_task` (the non-broadcast path): resolve the channel, fail with
`channel_resolution_failed` when neither a channel nor a user results,
otherwise dispatch on the task type; the surrounding `try` turns the
MESSAGE arity `TypeError` into a failure entry. -/
def dispatch_target (env : Env) (task : Task) (target : String) : TargetResult :=
  let cu := resolve_channel (task.channel.getD "dm") target task
  if !pyTruthy cu.1 && !pyTruthy cu.2 then
    { target := target, success := false, error := some "channel_resolution_failed" }
  else
    let tt := task.type.getD "MESSAGE"
    if tt == "MESSAGE" then
      match call_handle_message4 env task target cu.1 cu.2 with
      | .ok r => { target := target, success := r.success == some true, error := r.error }
      | .error e => { target := target, success := false, error := some e }
    else if tt == "POLL" then
      let r := handle_poll env task target cu.1
      { target := target, success := r.success == some true, error := r.error }
    else if tt == "QUERY-FOR-UPDATE" then
      let r := (handle_query_for_update env task target cu.1).1
      { target := target, success := r.success, error := r.error }
    else
      { target := target, success := false, error := some ("Unknown task type: " ++ tt) }

/-- The task-level error message `process_task` hands to
`record_task_error`: `'; '.join(f"{target}: {error}")` over the failing
entries (`'unknown'` when an entry lacks an error key). -/
def aggregate_error_msg (rs : List TargetResult) : String :=
  String.intercalate "; "
    ((rs.filter fun r => !r.success).map fun r => r.target ++ ": " ++ r.error.getD "unknown")

/-- handler.py `process_task(task)`.  `env.draw` is the value of
`random.randint(0, 100)` (uniform on 0..100 inclusive). -/
def process_task (env : Env) (task : Task) : ProcessOutcome :=
  let execution_rate := task.scheduler_params.execution_rate.getD 100
  if execution_rate < env.draw then
    { skipped := true, reason := some "execution_rate" }
  else
    let targets := expand_targets env task.targets
    if targets.isEmpty then
      { skipped := true, reason := some "no_targets" }
    else
      let channel_type := task.channel.getD "dm"
      let is_public :=
        !(channel_type == "dm" || channel_type == "group-dm") && pyTruthy task.channel_id
      let target_results :=
        if (task.type.getD "MESSAGE") == "MESSAGE" && is_public then
          let all_targets := if targets.isEmpty then "" else String.intercalate " " targets
          match call_handle_message4 env task all_targets task.channel_id none with
          | .ok r =>
            [{ target := all_targets, success := r.success == some true, error := r.error }]
          | .error e => [{ target := "all", success := false, error := some e }]
        else
          targets.map (dispatch_target env task)
      let all_success := target_results.all fun r => r.success
      { fired := all_success
        error := !all_success
        targets := target_results
        action := some (if all_success then DynamoAction.markFired
          else DynamoAction.recordError (aggregate_error_msg target_results)) }

/-! ## Claims C2, C3, C9, C10 (handler.py dispatch) -/

/-- C2: in the per-target dispatch path of `process_task` (gate passed,
non-empty expansion, not the broadcast path), the results list has one
entry per expanded target in order; a target whose channel resolution
yields neither a channel nor a user is recorded as a
`channel_resolution_failed` failure (and the loop continues with the
remaining targets, as the per-target `map` shows); `fired = true` iff
every per-target result has `success = true`; and on failure the
task-level error message handed to `record_task_error` is the
`'; '`-join of `target: error` over exactly the failing entries. -/
theorem claim_C2 (env : Env) (task : Task)
    (hgate : env.draw ≤ task.scheduler_params.execution_rate.getD 100)
    (htne : expand_targets env task.targets ≠ [])
    (hnb : ((task.type.getD "MESSAGE") == "MESSAGE" &&
      (!(task.channel.getD "dm" == "dm" || task.channel.getD "dm" == "group-dm") &&
        pyTruthy task.channel_id)) = false) :
    (process_task env task).targets =
      (expand_targets env task.targets).map (dispatch_target env task) ∧
    (∀ t, ((!pyTruthy (resolve_channel (task.channel.getD "dm") t task).1 &&
        !pyTruthy (resolve_channel (task.channel.getD "dm") t task).2) = true) →
      dispatch_target env task t =
        { target := t, success := false, error := some "channel_resolution_failed" }) ∧
    ((process_task env task).fired = true ↔
      ∀ r ∈ (process_task env task).targets, r.success = true) ∧
    ((process_task env task).fired = false →
      (process_task env task).action =
        some (DynamoAction.recordError (String.intercalate "; "
          (((process_task env task).targets.filter fun r => !r.success).map
            fun r => r.target ++ ": " ++ r.error.getD "unknown")))) := by
  have h1 : ¬ (task.scheduler_params.execution_rate.getD 100 < env.draw) := by omega
  have h2 : (expand_targets env task.targets).isEmpty = false := by
    cases h : expand_targets env task.targets with
    | nil => exact absurd h htne
    | cons a l => rfl
  have hpt : process_task env task =
      { fired := ((expand_targets env task.targets).map (dispatch_target env task)).all
          fun r => r.success
        error := !(((expand_targets env task.targets).map (dispatch_target env task)).all
          fun r => r.success)
        targets := (expand_targets env task.targets).map (dispatch_target env task)
        action := some (if ((expand_targets env task.targets).map
            (dispatch_target env task)).all (fun r => r.success) then DynamoAction.markFired
          else DynamoAction.recordError (aggregate_error_msg
            ((expand_targets env task.targets).map (dispatch_target env task)))) } := by
    simp only [process_task, if_neg h1, h2, hnb, Bool.false_eq_true, if_false]
  refine ⟨?_, ?_, ?_, ?_⟩
  · rw [hpt]
  · intro t hc
    simp only [dispatch_target, hc, if_true]
  · rw [hpt]
    simp only [List.all_eq_true]
  · intro hff
    rw [hpt] at hff ⊢
    simp only at hff
    simp only [hff, Bool.false_eq_true, if_false, aggregate_error_msg]


/-- Environment for the C2 witness: the reasoning backend immediately
requests `skip_message`, so a QUERY-FOR-UPDATE dispatch succeeds. -/
def c2Env : Env :=
  { draw := 0
    roleMembers := fun _ => []
    converse := fun _ _ =>
      .response "tool_use" [.toolUse "t1" "skip_message" { reason := some "ok" }]
    scanDrones := .ok []
    getDroneItem := fun _ => .ok none
    choice := fun l => l.headD ""
    taskExecute := fun _ => .error "unreachable"
    taskPoll := fun _ => .error "unreachable"
    lambdaInvoke := fun _ _ => .ok 202
    dronebotUrl := "http://localhost:3000"
    dronebotToken := "tok"
    dateStr := "2026-01-01"
    timeStr := "00:00" }

/-- A DM-mode QUERY-FOR-UPDATE task whose expanded targets are the
unresolvable empty-string target and the resolvable `0x01`. -/
def c2Task : Task :=
  { task_id := "dispatch-1"
    target := "orig"
    type := some "QUERY-FOR-UPDATE"
    targets := ["", "0x01"]
    channel := some "dm"
    payload_content := some "Check in." }

/-- Witness for C2: with targets `["", "0x01"]` over DM mode, the empty
target fails resolution, `0x01` is still dispatched and succeeds, the
task-level outcome is failure, and the aggregated error message is
exactly `": channel_resolution_failed"`. -/
theorem claim_C2_witness :
    (process_task c2Env c2Task).targets =
      [{ target := "", success := false, error := some "channel_resolution_failed" },
       { target := "0x01", success := true, error := none }] ∧
    (process_task c2Env c2Task).fired = false ∧
    (process_task c2Env c2Task).action =
      some (DynamoAction.recordError ": channel_resolution_failed") := by
  have h := claim_C2 c2Env c2Task (by decide) (by decide) (by decide)
  have hf : (process_task c2Env c2Task).fired = false := by decide
  refine ⟨by rw [h.1]; rfl, hf, ?_⟩
  rw [h.2.2.2 hf]
  rfl

/-- A minimal environment whose only relevant datum is the random draw
`d` (all collaborators are unreachable stubs). -/
def drawEnv (d : Nat) : Env :=
  { draw := d
    roleMembers := fun _ => []
    converse := fun _ _ => .exception "unreachable"
    scanDrones := .ok []
    getDroneItem := fun _ => .ok none
    choice := fun l => l.headD ""
    taskExecute := fun _ => .error "unreachable"
    taskPoll := fun _ => .error "unreachable"
    lambdaInvoke := fun _ _ => .ok 202
    dronebotUrl := ""
    dronebotToken := ""
    dateStr := ""
    timeStr := "" }

/-- A task with no targets and the default `execution_rate` (100). -/
def c3TaskDefaultRate : Task :=
  { task_id := "gate-100", target := "x", targets := [] }

/-- A task with no targets and `execution_rate = 0`. -/
def c3TaskZeroRate : Task :=
  { task_id := "gate-0", target := "x", targets := []
    scheduler_params := { execution_rate := some 0 } }

/-- C3 (showing the code bug): with `execution_rate = 100` no draw in
0..100 ever skips with reason `execution_rate`; but with
`execution_rate = 0` the draw 0 does NOT skip either — the gate
`random.randint(0, 100) > execution_rate` fails at `0 > 0`, the task
proceeds past the gate (here to the `no_targets` skip), contradicting
the claim that `execution_rate = 0` is always skipped with reason
`execution_rate`.  Draws 1..100 do skip as the claim expects. -/
theorem claim_C3 :
    (∀ d : Fin 101,
      (process_task (drawEnv d.val) c3TaskDefaultRate).reason ≠ some "execution_rate") ∧
    process_task (drawEnv 0) c3TaskZeroRate =
      { skipped := true, reason := some "no_targets" } ∧
    (∀ d : Fin 100, process_task (drawEnv (d.val + 1)) c3TaskZeroRate =
      { skipped := true, reason := some "execution_rate" }) := by
  refine ⟨by decide, by decide, by decide⟩

/-- C9: every MESSAGE task that passes the execution-rate gate and has
at least one expanded target only ever produces failing per-target
results — each is either the arity `TypeError` from calling the
3-parameter `handle_message` with 4 arguments, or a channel-resolution
failure — so the task-level outcome is never `fired` and
`mark_task_fired` is never invoked for a MESSAGE task. -/
theorem claim_C9 (env : Env) (task : Task)
    (htype : task.type.getD "MESSAGE" = "MESSAGE")
    (hgate : env.draw ≤ task.scheduler_params.execution_rate.getD 100)
    (htne : expand_targets env task.targets ≠ []) :
    (∀ r ∈ (process_task env task).targets, r.success = false ∧
      (r.error = some "handle_message() takes 3 positional arguments but 4 were given" ∨
       r.error = some "channel_resolution_failed")) ∧
    (process_task env task).fired = false ∧
    (process_task env task).error = true ∧
    (process_task env task).action ≠ some DynamoAction.markFired := by
  have h1 : ¬ (task.scheduler_params.execution_rate.getD 100 < env.draw) := by omega
  have h2 : (expand_targets env task.targets).isEmpty = false := by
    cases h : expand_targets env task.targets with
    | nil => exact absurd h htne
    | cons a l => rfl
  have htypeb : (task.type.getD "MESSAGE" == "MESSAGE") = true := by
    rw [htype]; decide
  have hcall : ∀ t cid uid, call_handle_message4 env task t cid uid =
      .error "handle_message() takes 3 positional arguments but 4 were given" :=
    fun _ _ _ => rfl
  have hdis : ∀ t, dispatch_target env task t =
      { target := t, success := false, error := some "channel_resolution_failed" } ∨
      dispatch_target env task t =
        { target := t, success := false,
          error := some "handle_message() takes 3 positional arguments but 4 were given" } := by
    intro t
    unfold dispatch_target
    by_cases hc : (!pyTruthy (resolve_channel (task.channel.getD "dm") t task).1 &&
        !pyTruthy (resolve_channel (task.channel.getD "dm") t task).2) = true
    · left; simp only [hc, if_true]
    · right
      have hc2 : (!pyTruthy (resolve_channel (task.channel.getD "dm") t task).1 &&
          !pyTruthy (resolve_channel (task.channel.getD "dm") t task).2) = false := by
        simpa using hc
      simp only [hc2, Bool.false_eq_true, if_false, htypeb, if_true, hcall]
  by_cases hb : ((task.type.getD "MESSAGE") == "MESSAGE" &&
      (!(task.channel.getD "dm" == "dm" || task.channel.getD "dm" == "group-dm") &&
        pyTruthy task.channel_id)) = true
  · have hpt : process_task env task =
        { fired := false
          error := true
          targets := [{ target := "all"
                        success := false
                        error := some "handle_message() takes 3 positional arguments but 4 were given" }]
          action := some (DynamoAction.recordError (aggregate_error_msg
            [{ target := "all"
               success := false
               error := some "handle_message() takes 3 positional arguments but 4 were given" }])) } := by
      simp only [process_task, if_neg h1, h2, hb, Bool.false_eq_true, if_false, if_true, hcall]
      rfl
    rw [hpt]
    refine ⟨?_, rfl, rfl, by simp⟩
    intro r hr
    simp only [List.mem_singleton] at hr
    subst hr
    exact ⟨rfl, Or.inl rfl⟩
  · have hb2 : ((task.type.getD "MESSAGE") == "MESSAGE" &&
        (!(task.channel.getD "dm" == "dm" || task.channel.getD "dm" == "group-dm") &&
          pyTruthy task.channel_id)) = false := by
      simpa using hb
    have hpt : process_task env task =
        { fired := ((expand_targets env task.targets).map (dispatch_target env task)).all
            fun r => r.success
          error := !(((expand_targets env task.targets).map (dispatch_target env task)).all
            fun r => r.success)
          targets := (expand_targets env task.targets).map (dispatch_target env task)
          action := some (if ((expand_targets env task.targets).map
              (dispatch_target env task)).all (fun r => r.success) then DynamoAction.markFired
            else DynamoAction.recordError (aggregate_error_msg
              ((expand_targets env task.targets).map (dispatch_target env task)))) } := by
      simp only [process_task, if_neg h1, h2, hb2, Bool.false_eq_true, if_false]
    have hmem : ∀ r ∈ (expand_targets env task.targets).map (dispatch_target env task),
        r.success = false ∧
        (r.error = some "handle_message() takes 3 positional arguments but 4 were given" ∨
         r.error = some "channel_resolution_failed") := by
      intro r hr
      obtain ⟨t, _, rfl⟩ := List.mem_map.mp hr
      rcases hdis t with h | h <;> rw [h]
      · exact ⟨rfl, Or.inr rfl⟩
      · exact ⟨rfl, Or.inl rfl⟩
    have hall : (((expand_targets env task.targets).map (dispatch_target env task)).all
        fun r => r.success) = false := by
      cases h : expand_targets env task.targets with
      | nil => exact absurd h htne
      | cons a l =>
        have := (hmem (dispatch_target env task a) (by rw [h]; simp)).1
        simp only [List.map_cons, List.all_cons, this, Bool.false_and]
    rw [hpt]
    refine ⟨hmem, ?_, ?_, ?_⟩
    · exact hall
    · rw [hall]; rfl
    · rw [hall]
      simp

/-- C10: `resolve_role_members` always returns the empty list (the
undefined global `DISCORD_BOT_LAMBDA` raises a caught `NameError`), so
every `role:` entry contributes no members to `expand_targets`, and a
gate-passing task whose targets are all role references is skipped with
reason `no_targets`. -/
theorem claim_C10 (env : Env) (task : Task)
    (hroles : ∀ t ∈ task.targets, pyStartsWith t "role:" = true)
    (hgate : env.draw ≤ task.scheduler_params.execution_rate.getD 100) :
    (∀ r, resolve_role_members env r = []) ∧
    expand_targets env task.targets = [] ∧
    process_task env task = { skipped := true, reason := some "no_targets" } := by
  have h1 : ¬ (task.scheduler_params.execution_rate.getD 100 < env.draw) := by omega
  have hrrm : ∀ r, resolve_role_members env r = [] := by
    intro r
    unfold resolve_role_members
    rw [if_neg (by decide)]
  have key : ∀ l : List String, (∀ t ∈ l, pyStartsWith t "role:" = true) →
      (l.flatMap fun t =>
        if pyStartsWith t "role:" then resolve_role_members env (t.drop 5) else [t]) = [] := by
    intro l hl
    induction l with
    | nil => rfl
    | cons a as ih =>
      simp only [List.flatMap_cons, hl a (by simp), if_true, hrrm, List.nil_append]
      exact ih fun t ht => hl t (by simp [ht])
  have hexp : expand_targets env task.targets = [] := by
    unfold expand_targets
    rw [key task.targets hroles]
    rfl
  refine ⟨hrrm, hexp, ?_⟩
  simp only [process_task, if_neg h1, hexp]
  rfl

/-- A DM-mode MESSAGE task with one resolvable target. -/
def c9Task : Task :=
  { task_id := "msg-1"
    target := "orig"
    type := some "MESSAGE"
    targets := ["0x01"]
    channel := some "dm"
    payload_content := some "hello {target}" }

/-- Witness for C9: the concrete MESSAGE task is not fired and
`mark_task_fired` is not chosen. -/
theorem claim_C9_witness :
    (process_task (drawEnv 0) c9Task).fired = false ∧
    (process_task (drawEnv 0) c9Task).action ≠ some DynamoAction.markFired := by
  have h := claim_C9 (drawEnv 0) c9Task (by decide) (by decide) (by decide)
  exact ⟨h.2.1, h.2.2.2⟩

/-- A task whose targets are exclusively role references. -/
def c10Task : Task :=
  { task_id := "role-1"
    target := "orig"
    targets := ["role:hive-drone", "role:queens"] }

/-- Witness for C10 at concrete role targets. -/
theorem claim_C10_witness :
    resolve_role_members (drawEnv 0) "hive-drone" = [] ∧
    expand_targets (drawEnv 0) c10Task.targets = [] ∧
    process_task (drawEnv 0) c10Task = { skipped := true, reason := some "no_targets" } := by
  have h := claim_C10 (drawEnv 0) c10Task (by decide) (by decide)
  exact ⟨h.1 "hive-drone", h.2.1, h.2.2⟩

end TaskSched
